import Mathlib

/-!
Shallow embedding of the ftth-rtnl netlink client library (link, address,
neighbor, route and virtual-interface subsystems), together with theorems
checking its specification.

Conventions of the embedding:
* machine integers are `Nat` (u8/u16/u32 ranges appear as hypotheses or
  explicit `%`/`min` where overflow or truncation matters);
* the kernel transport handle is an oracle record: every wire operation the
  server would issue becomes one invocation of an oracle field, and each
  server function returns, next to its response, the number of wire
  operations it issued (so "no wire interaction" is `= 0`);
* Rust `io::Result` is `Except IoError`, `panic!`/slice-bound failures are
  `Except Unit` with `.error ()`;
* fallible kernel results (`Result<(), rtnetlink::Error>`) are small
  inductives separating the `NetlinkError` io-kinds the code inspects.
-/

/-- An IP address: the v4 payload is the u32 value, the v6 payload the u128
value of the address. -/
inductive IpAddrM
  | v4 (a : Nat)
  | v6 (a : Nat)
deriving Repr, DecidableEq, BEq

/-- `std::io::ErrorKind` restricted to the kinds this library constructs. -/
inductive IoErrorKind
  | notFound
  | unsupported
  | other
deriving Repr, DecidableEq

/-- `std::io::Error`: a kind plus the formatted message. -/
structure IoError where
  kind : IoErrorKind
  msg : String
deriving Repr, DecidableEq

namespace Link

/-- `netlink_packet_route::link::LinkAttribute`, restricted to the
constructors the code matches on; everything else is `otherAttr`. -/
inductive LinkAttribute
  | IfName (name : String)
  | Address (addr : List Nat)
  | Mtu (mtu : Nat)
  | otherAttr
deriving Repr, DecidableEq

/-- A decoded kernel link reply message: header index plus attributes. -/
structure LinkMessageModel where
  index : Nat
  attributes : List LinkAttribute
deriving Repr, DecidableEq

/-- `link::Interface`. -/
structure Interface where
  if_name : String
  if_id : Nat
deriving Repr, DecidableEq

/-- `link::RtnlLinkRequest`. -/
inductive RtnlLinkRequest
  | InterfaceList
  | InterfaceGet (if_id : Nat)
  | InterfaceGetByName (if_name : String)
  | MacAddrGet (if_id : Nat)
  | MacAddrSet (if_id : Nat) (mac_addr : List Nat)
  | MtuGet (if_id : Nat)
  | InterfaceSetAdmin (if_id : Nat) (up : Bool)
  | InterfaceSetPromisc (if_id : Nat) (enable : Bool)
  | InterfaceSetArp (if_id : Nat) (enable : Bool)
  | InterfaceSetMtu (if_id : Nat) (mtu : Nat)
  | InterfaceRename (if_id : Nat) (if_name : String)
  | InterfaceSetAllMulticast (if_id : Nat) (enable : Bool)
deriving Repr, DecidableEq

/-- `link::RtnlLinkResponse`. A MAC address is its 6-byte list. -/
inductive RtnlLinkResponse
  | Success
  | Failed
  | NotImplemented
  | NotFound
  | InterfaceList (list : List Interface)
  | Interface (i : Interface)
  | MacAddr (m : List Nat)
  | Mtu (mtu : Nat)
deriving Repr, DecidableEq

/-- The link message assembled by `apply_link_set` /
`LinkMessageBuilder::<LinkUnspec>` before `handle.set`: target index plus
the one modification the operation requested (the all-multicast arm sets
the flag together with its change-mask bit, recorded as `allmulti`). -/
structure LinkSetMessage where
  index : Nat
  address : Option (List Nat)
  adminUp : Option Bool
  promiscuous : Option Bool
  arp : Option Bool
  mtu : Option Nat
  newName : Option String
  allmulti : Option Bool
deriving Repr, DecidableEq

/-- Outcome of a `handle.set(..).execute()` call
(`Result<(), rtnetlink::Error>`), split by the io-kind inspection in
`map_link_result`. -/
inductive LinkOpResult
  | ok
  | netlinkNotFound
  | netlinkOther
  | otherError
deriving Repr, DecidableEq

/-- The transport sub-handle for links (`rtnetlink::LinkHandle`), as an
oracle: each field is the reply the kernel would give to that wire call. -/
structure LinkHandleModel where
  getByIndex : Nat → List LinkMessageModel
  getByName : String → List LinkMessageModel
  getAll : List LinkMessageModel
  applySet : LinkSetMessage → LinkOpResult

/-- `link::map_link_result` (the logging is dropped; only the response
mapping is kept). -/
def map_link_result : LinkOpResult → RtnlLinkResponse
  | .ok => .Success
  | .netlinkNotFound => .NotFound
  | .netlinkOther => .Failed
  | .otherError => .Failed

/-- The attribute scan in the `InterfaceGet` / `InterfaceList` arms: the
last `IfName` attribute wins (the loop overwrites `if_name`). -/
def findIfName (attrs : List LinkAttribute) : Option String :=
  attrs.foldl
    (fun acc attr =>
      match attr with
      | .IfName name => some name
      | _ => acc)
    none

/-- The attribute scan in the `MacAddrGet` arm: the first `Address`
attribute is taken (the loop responds immediately). -/
def firstAddressAttr (attrs : List LinkAttribute) : Option (List Nat) :=
  attrs.findSome?
    (fun attr =>
      match attr with
      | .Address addr => some addr
      | _ => none)

/-- The attribute scan in the `MtuGet` arm: first `Mtu` attribute. -/
def firstMtuAttr (attrs : List LinkAttribute) : Option Nat :=
  attrs.findSome?
    (fun attr =>
      match attr with
      | .Mtu mtu => some mtu
      | _ => none)

/-- The byte extraction `addr[0..6].try_into().unwrap_or([0; 6])` of the
`MacAddrGet` server arm.  Slicing `addr[0..6]` panics when the attribute
holds fewer than 6 bytes (`.error ()`); when it is in bounds the 6-byte
slice converts to the array exactly, so `unwrap_or`'s fallback is dead. -/
def mac_bytes_from_attr (addr : List Nat) : Except Unit (List Nat) :=
  if 6 ≤ addr.length then .ok (addr.take 6) else .error ()

/-- One `InterfaceList` entry: skipped when the header index is 0 or no
name attribute is present. -/
def decodeListEntry (m : LinkMessageModel) : Option Interface :=
  if m.index = 0 then none
  else
    match findIfName m.attributes with
    | some name => some ⟨name, m.index⟩
    | none => none

/-- `link::run_server`, one request at a time: the response (with `.error ()`
for a panic) paired with the number of wire operations issued. -/
def linkServe (h : LinkHandleModel) :
    RtnlLinkRequest → Except Unit RtnlLinkResponse × Nat
  | .InterfaceGet if_id =>
    if if_id = 0 then (.ok .NotFound, 0)
    else
      match (h.getByIndex if_id).findSome? (fun m => findIfName m.attributes) with
      | some name => (.ok (.Interface ⟨name, if_id⟩), 1)
      | none => (.ok .NotFound, 1)
  | .InterfaceGetByName if_name =>
    match (h.getByName if_name).find? (fun m => m.index != 0) with
    | some m => (.ok (.Interface ⟨if_name, m.index⟩), 1)
    | none => (.ok .NotFound, 1)
  | .MacAddrGet if_id =>
    if if_id = 0 then (.ok .NotFound, 0)
    else
      match (h.getByIndex if_id).findSome? (fun m => firstAddressAttr m.attributes) with
      | some addr =>
        match mac_bytes_from_attr addr with
        | .ok mac => (.ok (.MacAddr mac), 1)
        | .error e => (.error e, 1)
      | none => (.ok .NotFound, 1)
  | .MtuGet if_id =>
    if if_id = 0 then (.ok .NotFound, 0)
    else
      match (h.getByIndex if_id).findSome? (fun m => firstMtuAttr m.attributes) with
      | some mtu => (.ok (.Mtu mtu), 1)
      | none => (.ok .NotFound, 1)
  | .InterfaceList =>
    (.ok (.InterfaceList (h.getAll.filterMap decodeListEntry)), 1)
  | .MacAddrSet if_id mac_addr =>
    if if_id = 0 then (.ok .NotFound, 0)
    else
      (.ok (map_link_result
        (h.applySet ⟨if_id, some mac_addr, none, none, none, none, none, none⟩)), 1)
  | .InterfaceSetAdmin if_id up =>
    if if_id = 0 then (.ok .NotFound, 0)
    else
      (.ok (map_link_result
        (h.applySet ⟨if_id, none, some up, none, none, none, none, none⟩)), 1)
  | .InterfaceSetPromisc if_id enable =>
    if if_id = 0 then (.ok .NotFound, 0)
    else
      (.ok (map_link_result
        (h.applySet ⟨if_id, none, none, some enable, none, none, none, none⟩)), 1)
  | .InterfaceSetArp if_id enable =>
    if if_id = 0 then (.ok .NotFound, 0)
    else
      (.ok (map_link_result
        (h.applySet ⟨if_id, none, none, none, some enable, none, none, none⟩)), 1)
  | .InterfaceSetMtu if_id mtu =>
    if if_id = 0 then (.ok .NotFound, 0)
    else
      (.ok (map_link_result
        (h.applySet ⟨if_id, none, none, none, none, some mtu, none, none⟩)), 1)
  | .InterfaceRename if_id if_name =>
    if if_id = 0 then (.ok .NotFound, 0)
    else
      (.ok (map_link_result
        (h.applySet ⟨if_id, none, none, none, none, none, some if_name, none⟩)), 1)
  | .InterfaceSetAllMulticast if_id enable =>
    if if_id = 0 then (.ok .NotFound, 0)
    else
      (.ok (map_link_result
        (h.applySet ⟨if_id, none, none, none, none, none, none, some enable⟩)), 1)

/-- Debug rendering of a response (`{:?}`), modelling `derive(Debug)` and
the custom `MacAddr` debug impl: the output begins with the variant's
name; payload rendering is abstracted to a fixed placeholder. -/
def linkRespDebug : RtnlLinkResponse → String
  | .Success => "Success"
  | .Failed => "Failed"
  | .NotImplemented => "NotImplemented"
  | .NotFound => "NotFound"
  | .InterfaceList _ => "InterfaceList(..)"
  | .Interface _ => "Interface(..)"
  | .MacAddr _ => "MacAddr(..)"
  | .Mtu _ => "Mtu(..)"

/-- `link::handle_status_response`. -/
def handle_status_response (op : String) : RtnlLinkResponse → Except IoError Unit
  | .Success => .ok ()
  | .NotFound => .error ⟨.notFound, op ++ ": interface not found"⟩
  | .Failed => .error ⟨.other, op ++ " failed"⟩
  | .NotImplemented => .error ⟨.unsupported, op ++ " not implemented"⟩
  | other => .error ⟨.other,
      op ++ " returned unexpected response: " ++ linkRespDebug other⟩

/-- The response mapping of the `mac_addr_get` facade method: only
`MacAddr` is recognized; every other variant falls through to `Ok(None)`. -/
def mac_addr_get_handle : RtnlLinkResponse → Except IoError (Option (List Nat))
  | .MacAddr addr => .ok (some addr)
  | _ => .ok none

/-- The response mapping of the `interface_get_by_name` facade method. -/
def interface_get_by_name_handle : RtnlLinkResponse → Except IoError Interface
  | .Interface i => .ok i
  | _ => .error ⟨.other, "Not found"⟩

/-- The response mapping of the `interface_list` facade method. -/
def interface_list_handle : RtnlLinkResponse → Except IoError (List Interface)
  | .InterfaceList list => .ok list
  | _ => .error ⟨.other, "Unknown error"⟩

end Link

namespace Addr

/-- `ipnet::Ipv4Net`: address value (u32) plus prefix length. -/
structure Ipv4NetM where
  addr : Nat
  prefix_len : Nat
deriving Repr, DecidableEq

/-- `ipnet::Ipv6Net`: address value (u128) plus prefix length. -/
structure Ipv6NetM where
  addr : Nat
  prefix_len : Nat
deriving Repr, DecidableEq

/-- `Ipv4Addr::is_multicast`: the first octet masked with 0xf0 is 0xe0. -/
def ipv4_is_multicast (a : Nat) : Bool :=
  Nat.land (a / 2 ^ 24 % 256) 0xf0 == 0xe0

/-- `Ipv6Addr::is_multicast`: the first segment masked with 0xff00 is
0xff00. -/
def ipv6_is_multicast (a : Nat) : Bool :=
  Nat.land (a / 2 ^ 112 % 65536) 0xff00 == 0xff00

/-- `netlink_packet_route::AddressFamily`, restricted to what the code
compares against. -/
inductive AddressFamilyM
  | inet
  | inet6
  | otherFam
deriving Repr, DecidableEq, BEq

/-- `netlink_packet_route::address::AddressAttribute`, restricted to the
constructors the code builds or matches. -/
inductive AddressAttributeM
  | Address (a : IpAddrM)
  | Local (a : IpAddrM)
  | Broadcast (a : Nat)
  | Multicast (a : Nat)
  | otherAttr
deriving Repr, DecidableEq

/-- `netlink_packet_route::address::AddressMessage`: the header fields the
code touches plus the attribute list. -/
structure AddressMessageM where
  family : AddressFamilyM
  index : Nat
  prefix_len : Nat
  attributes : List AddressAttributeM
deriving Repr, DecidableEq

/-- The broadcast address computed in `build_ipv4_address_message`:
the address itself for a /32, otherwise the address or-ed with
`0xffff_ffff_u32 >> prefix_len`. -/
def ipv4_broadcast (net : Ipv4NetM) : Nat :=
  if net.prefix_len = 32 then net.addr
  else Nat.lor net.addr (Nat.shiftRight 0xffffffff net.prefix_len)

/-- `address::build_ipv4_address_message`. -/
def build_ipv4_address_message (net : Ipv4NetM) (if_id : Nat) : AddressMessageM :=
  { family := AddressFamilyM.inet
    index := if_id
    prefix_len := net.prefix_len
    attributes :=
      if ipv4_is_multicast net.addr then []
      else
        [AddressAttributeM.Address (.v4 net.addr),
         AddressAttributeM.Local (.v4 net.addr),
         AddressAttributeM.Broadcast (ipv4_broadcast net)] }

/-- `address::build_ipv6_address_message`. -/
def build_ipv6_address_message (net : Ipv6NetM) (if_id : Nat) : AddressMessageM :=
  { family := AddressFamilyM.inet6
    index := if_id
    prefix_len := net.prefix_len
    attributes :=
      if ipv6_is_multicast net.addr then [AddressAttributeM.Multicast net.addr]
      else
        [AddressAttributeM.Address (.v6 net.addr),
         AddressAttributeM.Local (.v6 net.addr)] }

/-- `address::RtnlAddressRequest`. -/
inductive RtnlAddressRequest
  | Ipv4AddrsGet (if_id : Nat)
  | Ipv6AddrsGet (if_id : Nat)
  | Ipv4AddrSet (net : Ipv4NetM) (if_id : Nat)
  | Ipv6AddrSet (net : Ipv6NetM) (if_id : Nat)
  | Ipv4AddrDel (net : Ipv4NetM) (if_id : Nat)
  | Ipv6AddrDel (net : Ipv6NetM) (if_id : Nat)
deriving Repr, DecidableEq

/-- `address::RtnlAddressResponse` (address payloads as integer values). -/
inductive RtnlAddressResponse
  | Success
  | Failed
  | NotImplemented
  | NotFound
  | Ipv4Addrs (addrs : List Nat)
  | Ipv6Addrs (addrs : List Nat)
deriving Repr, DecidableEq

/-- Outcome of an address add/del wire call, split by the io-kind
inspections in `run_server` (`AlreadyExists`, `AddrNotAvailable`,
`NotFound` on a `NetlinkError`; any other error collapses). -/
inductive AddrOpResult
  | ok
  | netlinkAlreadyExists
  | netlinkAddrNotAvail
  | netlinkNotFound
  | netlinkOther
  | otherError
deriving Repr, DecidableEq

/-- The transport sub-handle for addresses (`rtnetlink::AddressHandle`) as
an oracle.  `getAddrs` is `handle.get()` with the optional link-index
filter; adds are keyed by interface and prefix, deletes by the message
the code builds. -/
structure AddressHandleModel where
  getAddrs : Option Nat → List AddressMessageM
  addV4 : Nat → Ipv4NetM → AddrOpResult
  addV6 : Nat → Ipv6NetM → AddrOpResult
  delV4 : AddressMessageM → AddrOpResult
  delV6 : AddressMessageM → AddrOpResult

/-- The v4 branch of the enumeration loops: for every reply of family
`inet`, every `Address` attribute holding a v4 address is collected. -/
def collectV4 (msgs : List AddressMessageM) : List Nat :=
  msgs.foldl
    (fun acc m =>
      if m.family == AddressFamilyM.inet then
        acc ++ m.attributes.filterMap
          (fun attr =>
            match attr with
            | .Address (.v4 a) => some a
            | _ => none)
      else acc)
    []

/-- The v6 branch of the enumeration loops. -/
def collectV6 (msgs : List AddressMessageM) : List Nat :=
  msgs.foldl
    (fun acc m =>
      if m.family == AddressFamilyM.inet6 then
        acc ++ m.attributes.filterMap
          (fun attr =>
            match attr with
            | .Address (.v6 a) => some a
            | _ => none)
      else acc)
    []

/-- `address::run_server`, one request at a time: the response paired with
the number of wire operations issued. -/
def addressServe (h : AddressHandleModel) :
    RtnlAddressRequest → RtnlAddressResponse × Nat
  | .Ipv4AddrsGet if_id =>
    (.Ipv4Addrs (collectV4 (h.getAddrs (if if_id = 0 then none else some if_id))), 1)
  | .Ipv6AddrsGet if_id =>
    (.Ipv6Addrs (collectV6 (h.getAddrs (if if_id = 0 then none else some if_id))), 1)
  | .Ipv4AddrSet net if_id =>
    if if_id = 0 then (.Failed, 0)
    else
      match h.addV4 if_id net with
      | .ok => (.Success, 1)
      | .netlinkAlreadyExists => (.Success, 1)
      | _ => (.Failed, 1)
  | .Ipv6AddrSet net if_id =>
    if if_id = 0 then (.Failed, 0)
    else
      match h.addV6 if_id net with
      | .ok => (.Success, 1)
      | .netlinkAlreadyExists => (.Success, 1)
      | _ => (.Failed, 1)
  | .Ipv4AddrDel net if_id =>
    if if_id = 0 then (.Failed, 0)
    else
      match h.delV4 (build_ipv4_address_message net if_id) with
      | .ok => (.Success, 1)
      | .netlinkAddrNotAvail => (.NotFound, 1)
      | .netlinkNotFound => (.NotFound, 1)
      | _ => (.Failed, 1)
  | .Ipv6AddrDel net if_id =>
    if if_id = 0 then (.Failed, 0)
    else
      match h.delV6 (build_ipv6_address_message net if_id) with
      | .ok => (.Success, 1)
      | .netlinkAddrNotAvail => (.NotFound, 1)
      | .netlinkNotFound => (.NotFound, 1)
      | _ => (.Failed, 1)

/-- Debug rendering of an address response (`{:?}`): the output begins
with the variant's name; payload rendering is abstracted. -/
def addrRespDebug : RtnlAddressResponse → String
  | .Success => "Success"
  | .Failed => "Failed"
  | .NotImplemented => "NotImplemented"
  | .NotFound => "NotFound"
  | .Ipv4Addrs _ => "Ipv4Addrs(..)"
  | .Ipv6Addrs _ => "Ipv6Addrs(..)"

/-- `address::handle_basic_response`. -/
def handle_basic_response (operation : String) (is_delete : Bool) :
    RtnlAddressResponse → Except IoError Unit
  | .Success => .ok ()
  | .Failed => .error ⟨.other, operation ++ " request failed"⟩
  | .NotImplemented =>
    .error ⟨.unsupported, operation ++ " request is not implemented"⟩
  | .NotFound =>
    .error ⟨.notFound,
      if is_delete then operation ++ " target not found"
      else operation ++ " not found"⟩
  | other => .error ⟨.other,
      operation ++ " returned unexpected response: " ++ addrRespDebug other⟩

/-- The response mapping of the `ipv4_addrs_get` facade method. -/
def ipv4_addrs_get_handle : RtnlAddressResponse → Except IoError (List Nat)
  | .Ipv4Addrs addrs => .ok addrs
  | _ => .error ⟨.other, "Failed to get IPv4 addresses"⟩

/-- The response mapping of the `ipv6_addrs_get` facade method. -/
def ipv6_addrs_get_handle : RtnlAddressResponse → Except IoError (List Nat)
  | .Ipv6Addrs addrs => .ok addrs
  | _ => .error ⟨.other, "Failed to get IPv6 addresses"⟩

/-- A transport oracle whose every call succeeds with an empty table:
used to evaluate server arms on concrete inputs. -/
def trivialHandle : AddressHandleModel :=
  ⟨fun _ => [], fun _ _ => .ok, fun _ _ => .ok, fun _ => .ok, fun _ => .ok⟩

/-- A transport oracle whose add operations always report an
`AlreadyExists` kernel conflict. -/
def conflictHandle : AddressHandleModel :=
  ⟨fun _ => [], fun _ _ => .netlinkAlreadyExists, fun _ _ => .netlinkAlreadyExists,
   fun _ => .ok, fun _ => .ok⟩

end Addr

namespace Route

/-- `route::RouteNextHopInfo` (flags kept abstract as their bit value). -/
structure RouteNextHopInfoM where
  if_id : Option Nat
  gateway : Option IpAddrM
  weight : Nat
  flags : Nat
deriving Repr, DecidableEq

/-- `route::Ipv4Route`. -/
structure Ipv4RouteM where
  if_id : Option Nat
  gateway : Option IpAddrM
  source : Option Nat
  metric : Option Nat
  table : Option Nat
  route : Addr.Ipv4NetM
  nexthops : List RouteNextHopInfoM
deriving Repr, DecidableEq

/-- `route::Ipv6Route`. -/
structure Ipv6RouteM where
  if_id : Option Nat
  gateway : Option IpAddrM
  source : Option Nat
  metric : Option Nat
  table : Option Nat
  route : Addr.Ipv6NetM
  nexthops : List RouteNextHopInfoM
deriving Repr, DecidableEq

/-- `netlink_packet_route::route::RouteAttribute` restricted to the
constructors `convert_multipath` / `build_multipath_*` touch. -/
inductive RouteAttributeM
  | Gateway (a : IpAddrM)
  | Via (a : IpAddrM)
  | NewDestination
  | otherAttr
deriving Repr, DecidableEq

/-- `netlink_packet_route::route::RouteNextHop`: the wire next-hop record
(`hops` is the u8 hop-count field). -/
structure RouteNextHopM where
  flags : Nat
  hops : Nat
  interface_index : Nat
  attributes : List RouteAttributeM
deriving Repr, DecidableEq

/-- `route::RtnlRouteResponse`. -/
inductive RtnlRouteResponse
  | Success
  | Failed
  | NotImplemented
  | NotFound
  | Ipv4RouteList (l : List Ipv4RouteM)
  | Ipv6RouteList (l : List Ipv6RouteM)
  | Ipv4Route (r : Ipv4RouteM)
  | Ipv6Route (r : Ipv6RouteM)
deriving Repr, DecidableEq

/-- Outcome of a route add/replace/delete wire call, split by the io-kind
inspection in `map_route_result`. -/
inductive RouteOpResult
  | ok
  | netlinkNotFound
  | netlinkAlreadyExists
  | netlinkOther
  | otherError
deriving Repr, DecidableEq

/-- The transport sub-handle for routes (`rtnetlink::RouteHandle`) as an
oracle.  `handle.add(build_ipv4_route_message(&route))`, optionally with
`.replace()`, is keyed by the domain route plus the replace flag (the
message building is absorbed into the oracle key). -/
structure RouteHandleModel where
  addV4 : Ipv4RouteM → Bool → RouteOpResult
  addV6 : Ipv6RouteM → Bool → RouteOpResult

/-- `route::map_route_result` (logging dropped): `NotFound` maps to
not-found, `AlreadyExists` and everything else map to failed. -/
def map_route_result : RouteOpResult → RtnlRouteResponse
  | .ok => .Success
  | .netlinkNotFound => .NotFound
  | .netlinkAlreadyExists => .Failed
  | .netlinkOther => .Failed
  | .otherError => .Failed

/-- `route::add_route_v4`. -/
def add_route_v4 (h : RouteHandleModel) (route : Ipv4RouteM) (replace : Bool) :
    RtnlRouteResponse :=
  map_route_result (h.addV4 route replace)

/-- `route::add_route_v6`. -/
def add_route_v6 (h : RouteHandleModel) (route : Ipv6RouteM) (replace : Bool) :
    RtnlRouteResponse :=
  map_route_result (h.addV6 route replace)

/-- Debug rendering of a route response (`{:?}`): the output begins with
the variant's name; payload rendering is abstracted. -/
def routeRespDebug : RtnlRouteResponse → String
  | .Success => "Success"
  | .Failed => "Failed"
  | .NotImplemented => "NotImplemented"
  | .NotFound => "NotFound"
  | .Ipv4RouteList _ => "Ipv4RouteList(..)"
  | .Ipv6RouteList _ => "Ipv6RouteList(..)"
  | .Ipv4Route _ => "Ipv4Route(..)"
  | .Ipv6Route _ => "Ipv6Route(..)"

/-- `route::handle_route_status`. -/
def handle_route_status (op : String) : RtnlRouteResponse → Except IoError Unit
  | .Success => .ok ()
  | .NotFound => .error ⟨.notFound, op ++ ": route not found"⟩
  | .Failed => .error ⟨.other, op ++ " failed"⟩
  | .NotImplemented => .error ⟨.unsupported, op ++ " not implemented"⟩
  | other => .error ⟨.other,
      op ++ " returned unexpected response: " ++ routeRespDebug other⟩

/-- The per-hop gateway scan of `convert_multipath`: the last
`Gateway`/`Via` attribute wins (the loop overwrites `gateway`);
`NewDestination` and everything else are ignored. -/
def nexthopGateway (attrs : List RouteAttributeM) : Option IpAddrM :=
  attrs.foldl
    (fun acc attr =>
      match attr with
      | .Gateway a => some a
      | .Via a => some a
      | .NewDestination => acc
      | .otherAttr => acc)
    none

/-- `route::convert_multipath`: the domain weight is
`u32::from(path.hops).saturating_add(1)` and a zero interface index is
normalized to absent. -/
def convert_multipath (paths : List RouteNextHopM) : List RouteNextHopInfoM :=
  paths.map
    (fun path =>
      { if_id := if path.interface_index = 0 then none else some path.interface_index
        gateway := nexthopGateway path.attributes
        weight := min (path.hops + 1) 0xffffffff
        flags := path.flags })

/-- `route::weight_to_hops`:
`weight.saturating_sub(1).min(u8::MAX as u32) as u8` (the cast is the
identity since the value is already at most 255). -/
def weight_to_hops (weight : Nat) : Nat :=
  min (weight - 1) 255

/-- `route::build_multipath_v4`. -/
def build_multipath_v4 (entries : List RouteNextHopInfoM) :
    Option (List RouteNextHopM) :=
  let nexthops := entries.map
    (fun entry =>
      ({ flags := entry.flags
         hops := weight_to_hops entry.weight
         interface_index := entry.if_id.getD 0
         attributes :=
           match entry.gateway with
           | some (.v4 a) => [RouteAttributeM.Gateway (.v4 a)]
           | some (.v6 a) => [RouteAttributeM.Via (.v6 a)]
           | none => [] } : RouteNextHopM))
  if nexthops.isEmpty then none else some nexthops

/-- `route::build_multipath_v6`. -/
def build_multipath_v6 (entries : List RouteNextHopInfoM) :
    Option (List RouteNextHopM) :=
  let nexthops := entries.map
    (fun entry =>
      ({ flags := entry.flags
         hops := weight_to_hops entry.weight
         interface_index := entry.if_id.getD 0
         attributes :=
           match entry.gateway with
           | some (.v6 a) => [RouteAttributeM.Gateway (.v6 a)]
           | some (.v4 a) => [RouteAttributeM.Via (.v4 a)]
           | none => [] } : RouteNextHopM))
  if nexthops.isEmpty then none else some nexthops

end Route

namespace Neigh

/-- `neighbor::NeighborEntry` (protocol state and flags kept abstract as
their numeric values). -/
structure NeighborEntryM where
  if_id : Nat
  destination : IpAddrM
  link_address : Option (List Nat)
  state : Option Nat
  flags : Option Nat
deriving Repr, DecidableEq, BEq

/-- `neighbor::RtnlNeighborResponse`. -/
inductive RtnlNeighborResponse
  | Success
  | Failed
  | NotImplemented
  | NotFound
  | Neighbors (l : List NeighborEntryM)
  | Neighbor (e : NeighborEntryM)
deriving Repr, DecidableEq

/-- The match predicate of `get_neighbor`: the destination must be equal,
and when an interface filter is given the interface must be equal too. -/
def neighborMatches (destination : IpAddrM) (if_id : Option Nat)
    (entry : NeighborEntryM) : Bool :=
  if entry.destination != destination then false
  else
    match if_id with
    | some index => if entry.if_id != index then false else true
    | none => true

/-- `neighbor::list_neighbors` applied to the outcome of
`fetch_neighbors` (the already-decoded neighbor table, `.error` when the
enumeration itself failed). -/
def list_neighbors (fetched : Except Unit (List NeighborEntryM))
    (if_id : Option Nat) : RtnlNeighborResponse :=
  match fetched with
  | .ok entries =>
    .Neighbors (entries.filter
      (fun entry =>
        match if_id with
        | none => true
        | some id => entry.if_id == id))
  | .error _ => .Failed

/-- `neighbor::get_neighbor` applied to the outcome of
`fetch_neighbors`. -/
def get_neighbor (fetched : Except Unit (List NeighborEntryM))
    (destination : IpAddrM) (if_id : Option Nat) : RtnlNeighborResponse :=
  match fetched with
  | .ok entries =>
    match entries.find? (neighborMatches destination if_id) with
    | some entry => .Neighbor entry
    | none => .NotFound
  | .error _ => .Failed

end Neigh

namespace VIf

/-- Big-endian bytes of a u32 (`Ipv4Addr::octets`, `u32::to_be_bytes`). -/
def be32 (v : Nat) : List Nat :=
  [v / 2 ^ 24 % 256, v / 2 ^ 16 % 256, v / 2 ^ 8 % 256, v % 256]

/-- Bytes of a u32 in native endianness (`u32::to_ne_bytes`); the targets
of this library are little-endian Linux hosts. -/
def ne32 (v : Nat) : List Nat :=
  [v % 256, v / 2 ^ 8 % 256, v / 2 ^ 16 % 256, v / 2 ^ 24 % 256]

/-- Bytes of a u16 in native endianness (`u16::to_ne_bytes`), truncating
the value to 16 bits like an `as u16` cast. -/
def ne16 (v : Nat) : List Nat :=
  [v % 256, v / 256 % 256]

/-- Big-endian bytes of a u128 (`Ipv6Addr::octets`). -/
def be128 (v : Nat) : List Nat :=
  (List.range 16).map (fun i => v / 2 ^ (8 * (15 - i)) % 256)

/-- `netlink_packet_core::DefaultNla`: a u16 attribute kind plus value
bytes. -/
structure DefaultNlaM where
  kind : Nat
  value : List Nat
deriving Repr, DecidableEq

/-- `virtual_interface::GreConfig` (endpoints as u32 values). -/
structure GreConfigM where
  local_addr : Nat
  remote_addr : Nat
  ttl : Option Nat
  tos : Option Nat
  key : Option Nat
  encap_limit : Option Nat
  pmtudisc : Bool
  ignore_df : Bool
  link : Option Nat
deriving Repr, DecidableEq

/-- `virtual_interface::Gre6Config` (endpoints as u128 values). -/
structure Gre6ConfigM where
  local_addr : Nat
  remote_addr : Nat
  hop_limit : Option Nat
  traffic_class : Option Nat
  key : Option Nat
  encap_limit : Option Nat
  pmtudisc : Bool
  ignore_df : Bool
  link : Option Nat
deriving Repr, DecidableEq

/-- `virtual_interface::IpIpConfig`. -/
structure IpIpConfigM where
  local_addr : Nat
  remote_addr : Nat
  ttl : Option Nat
  tos : Option Nat
  encap_limit : Option Nat
  pmtudisc : Bool
  link : Option Nat
deriving Repr, DecidableEq

/-- `virtual_interface::Ip6TnlConfig`. -/
structure Ip6TnlConfigM where
  local_addr : Nat
  remote_addr : Nat
  hop_limit : Option Nat
  traffic_class : Option Nat
  flow_label : Option Nat
  encap_limit : Option Nat
  pmtudisc : Bool
  link : Option Nat
deriving Repr, DecidableEq

/-- `virtual_interface::VlanConfig`. -/
structure VlanConfigM where
  base_ifindex : Option Nat
  vlan_id : Option Nat
deriving Repr, DecidableEq

/-- `virtual_interface::VirtualInterfaceKind`. -/
inductive VirtualInterfaceKindM
  | Gre (cfg : GreConfigM)
  | Gretap (cfg : GreConfigM)
  | Ip6Gre (cfg : Gre6ConfigM)
  | Ip6Gretap (cfg : Gre6ConfigM)
  | IpIp (cfg : IpIpConfigM)
  | Ip6Tnl (cfg : Ip6TnlConfigM)
  | Vlan (cfg : VlanConfigM)
deriving Repr, DecidableEq

/-- `virtual_interface::VirtualInterfaceSpec`. -/
structure VirtualInterfaceSpecM where
  name : String
  kind : VirtualInterfaceKindM
  admin_up : Bool
deriving Repr, DecidableEq

/-- `netlink_packet_route::link::InfoKind` restricted to the kinds this
code produces. -/
inductive InfoKindM
  | GreTun
  | GreTap
  | GreTun6
  | GreTap6
  | IpTun
  | OtherKind (s : String)
  | Vlan
deriving Repr, DecidableEq

/-- `netlink_packet_route::link::InfoVlan` restricted to `Id`. -/
inductive InfoVlanM
  | Id (id : Nat)
deriving Repr, DecidableEq

/-- `netlink_packet_route::link::InfoData` restricted to the payload
shapes this code produces: the GRE shapes wrap manual attributes via the
`Other` constructors, `OtherD` carries hand-encoded bytes, `VlanD`
typed VLAN attributes. -/
inductive InfoDataM
  | GreTunD (nlas : List DefaultNlaM)
  | GreTapD (nlas : List DefaultNlaM)
  | GreTun6D (nlas : List DefaultNlaM)
  | GreTap6D (nlas : List DefaultNlaM)
  | OtherD (bytes : List Nat)
  | VlanD (infos : List InfoVlanM)
deriving Repr, DecidableEq

def IFLA_GRE_LINK : Nat := 1
def IFLA_GRE_IKEY : Nat := 4
def IFLA_GRE_OKEY : Nat := 5
def IFLA_GRE_LOCAL : Nat := 6
def IFLA_GRE_REMOTE : Nat := 7
def IFLA_GRE_TTL : Nat := 8
def IFLA_GRE_TOS : Nat := 9
def IFLA_GRE_PMTUDISC : Nat := 10
def IFLA_GRE_ENCAP_LIMIT : Nat := 11
def IFLA_GRE_IGNORE_DF : Nat := 19

def IFLA_IPTUN_LINK : Nat := 1
def IFLA_IPTUN_LOCAL : Nat := 2
def IFLA_IPTUN_REMOTE : Nat := 3
def IFLA_IPTUN_TTL : Nat := 4
def IFLA_IPTUN_TOS : Nat := 5
def IFLA_IPTUN_ENCAP_LIMIT : Nat := 6
def IFLA_IPTUN_FLOWINFO : Nat := 7
def IFLA_IPTUN_PMTUDISC : Nat := 10

def NLA_HEADER_LEN : Nat := 4
def NLA_ALIGNTO : Nat := 4

/-- `virtual_interface::align_nla`:
`(len + NLA_ALIGNTO - 1) & !(NLA_ALIGNTO - 1)`, written as rounding down
to a multiple of 4 (these agree for every usize value). -/
def align_nla (len : Nat) : Nat :=
  (len + NLA_ALIGNTO - 1) - (len + NLA_ALIGNTO - 1) % NLA_ALIGNTO

/-- `virtual_interface::gre_nlas`. -/
def gre_nlas (cfg : GreConfigM) : List DefaultNlaM :=
  [⟨IFLA_GRE_LOCAL, be32 cfg.local_addr⟩, ⟨IFLA_GRE_REMOTE, be32 cfg.remote_addr⟩]
  ++ (match cfg.ttl with
      | some ttl => [⟨IFLA_GRE_TTL, [ttl]⟩]
      | none => [])
  ++ (match cfg.tos with
      | some tos => [⟨IFLA_GRE_TOS, [tos]⟩]
      | none => [])
  ++ (match cfg.key with
      | some key => [⟨IFLA_GRE_IKEY, be32 key⟩, ⟨IFLA_GRE_OKEY, be32 key⟩]
      | none => [])
  ++ [⟨IFLA_GRE_ENCAP_LIMIT, [cfg.encap_limit.getD 0xff]⟩,
      ⟨IFLA_GRE_PMTUDISC, [if cfg.pmtudisc then 1 else 0]⟩,
      ⟨IFLA_GRE_IGNORE_DF, [if cfg.ignore_df then 1 else 0]⟩]
  ++ (match cfg.link with
      | some link => [⟨IFLA_GRE_LINK, ne32 link⟩]
      | none => [])

/-- `virtual_interface::gre6_nlas`. -/
def gre6_nlas (cfg : Gre6ConfigM) : List DefaultNlaM :=
  [⟨IFLA_GRE_LOCAL, be128 cfg.local_addr⟩, ⟨IFLA_GRE_REMOTE, be128 cfg.remote_addr⟩]
  ++ (match cfg.hop_limit with
      | some hop => [⟨IFLA_GRE_TTL, [hop]⟩]
      | none => [])
  ++ (match cfg.traffic_class with
      | some tc => [⟨IFLA_GRE_TOS, [tc]⟩]
      | none => [])
  ++ (match cfg.key with
      | some key => [⟨IFLA_GRE_IKEY, be32 key⟩, ⟨IFLA_GRE_OKEY, be32 key⟩]
      | none => [])
  ++ [⟨IFLA_GRE_ENCAP_LIMIT, [cfg.encap_limit.getD 0xff]⟩,
      ⟨IFLA_GRE_PMTUDISC, [if cfg.pmtudisc then 1 else 0]⟩,
      ⟨IFLA_GRE_IGNORE_DF, [if cfg.ignore_df then 1 else 0]⟩]
  ++ (match cfg.link with
      | some link => [⟨IFLA_GRE_LINK, ne32 link⟩]
      | none => [])

/-- `virtual_interface::iptunnel_v4_nlas`. -/
def iptunnel_v4_nlas (cfg : IpIpConfigM) : List DefaultNlaM :=
  [⟨IFLA_IPTUN_LOCAL, be32 cfg.local_addr⟩, ⟨IFLA_IPTUN_REMOTE, be32 cfg.remote_addr⟩]
  ++ (match cfg.ttl with
      | some ttl => [⟨IFLA_IPTUN_TTL, [ttl]⟩]
      | none => [])
  ++ (match cfg.tos with
      | some tos => [⟨IFLA_IPTUN_TOS, [tos]⟩]
      | none => [])
  ++ [⟨IFLA_IPTUN_ENCAP_LIMIT, [cfg.encap_limit.getD 0xff]⟩,
      ⟨IFLA_IPTUN_PMTUDISC, [if cfg.pmtudisc then 1 else 0]⟩]
  ++ (match cfg.link with
      | some link => [⟨IFLA_IPTUN_LINK, ne32 link⟩]
      | none => [])

/-- `virtual_interface::iptunnel_v6_nlas`. -/
def iptunnel_v6_nlas (cfg : Ip6TnlConfigM) : List DefaultNlaM :=
  [⟨IFLA_IPTUN_LOCAL, be128 cfg.local_addr⟩, ⟨IFLA_IPTUN_REMOTE, be128 cfg.remote_addr⟩]
  ++ (match cfg.hop_limit with
      | some hop => [⟨IFLA_IPTUN_TTL, [hop]⟩]
      | none => [])
  ++ (match cfg.traffic_class with
      | some tc => [⟨IFLA_IPTUN_TOS, [tc]⟩]
      | none => [])
  ++ (match cfg.flow_label with
      | some flow => [⟨IFLA_IPTUN_FLOWINFO, be32 flow⟩]
      | none => [])
  ++ [⟨IFLA_IPTUN_ENCAP_LIMIT, [cfg.encap_limit.getD 0xff]⟩,
      ⟨IFLA_IPTUN_PMTUDISC, [if cfg.pmtudisc then 1 else 0]⟩]
  ++ (match cfg.link with
      | some link => [⟨IFLA_IPTUN_LINK, ne32 link⟩]
      | none => [])

/-- The in-place overwrite `target[off .. off + data.length] = data` used
by `encode_default_nlas` (in-bounds in every use below). -/
def writeBytes (buf : List Nat) (off : Nat) (data : List Nat) : List Nat :=
  buf.take off ++ data ++ buf.drop (off + data.length)

/-- One iteration of the `encode_default_nlas` loop: the record appended
for one attribute.  The buffer region is grown zero-filled to the aligned
length (`resize`), then the u16 total length `4 + value_len`, the u16
kind, and the value bytes are written at offsets 0, 2 and 4. -/
def encodeRecord (nla : DefaultNlaM) : List Nat :=
  let payload_len := nla.value.length + NLA_HEADER_LEN
  let aligned_len := align_nla payload_len
  let target := List.replicate aligned_len 0
  let target := writeBytes target 0 (ne16 payload_len)
  let target := writeBytes target 2 (ne16 nla.kind)
  writeBytes target 4 nla.value

/-- `virtual_interface::encode_default_nlas`. -/
def encode_default_nlas (nlas : List DefaultNlaM) : List Nat :=
  nlas.foldl (fun buffer nla => buffer ++ encodeRecord nla) []

/-- `virtual_interface::virtual_interface_kind_to_info_kind`. -/
def virtual_interface_kind_to_info_kind : VirtualInterfaceKindM → InfoKindM
  | .Gre _ => .GreTun
  | .Gretap _ => .GreTap
  | .Ip6Gre _ => .GreTun6
  | .Ip6Gretap _ => .GreTap6
  | .IpIp _ => .IpTun
  | .Ip6Tnl _ => .OtherKind "ip6tnl"
  | .Vlan _ => .Vlan

/-- `virtual_interface::virtual_interface_link`. -/
def virtual_interface_link : VirtualInterfaceKindM → Option Nat
  | .Gre cfg => cfg.link
  | .Gretap cfg => cfg.link
  | .Ip6Gre cfg => cfg.link
  | .Ip6Gretap cfg => cfg.link
  | .IpIp cfg => cfg.link
  | .Ip6Tnl cfg => cfg.link
  | .Vlan cfg => cfg.base_ifindex

/-- `virtual_interface::validate_create_kind`: the error payload is the
`io::Error` message. -/
def validate_create_kind : VirtualInterfaceKindM → Except String Unit
  | .Vlan cfg =>
    if cfg.base_ifindex.isNone then
      .error "VLAN creation requires a parent interface (--dev)"
    else if cfg.vlan_id.isNone then
      .error "VLAN creation requires --vlan-id"
    else .ok ()
  | _ => .ok ()

/-- `virtual_interface::build_info_data`. -/
def build_info_data : VirtualInterfaceKindM → Except String InfoDataM
  | .Gre cfg => .ok (.GreTunD (gre_nlas cfg))
  | .Gretap cfg => .ok (.GreTapD (gre_nlas cfg))
  | .Ip6Gre cfg => .ok (.GreTun6D (gre6_nlas cfg))
  | .Ip6Gretap cfg => .ok (.GreTap6D (gre6_nlas cfg))
  | .IpIp cfg => .ok (.OtherD (encode_default_nlas (iptunnel_v4_nlas cfg)))
  | .Ip6Tnl cfg => .ok (.OtherD (encode_default_nlas (iptunnel_v6_nlas cfg)))
  | .Vlan cfg =>
    .ok (.VlanD (match cfg.vlan_id with
      | some id => [InfoVlanM.Id id]
      | none => []))

/-- The create link message assembled by `build_create_message` through
`LinkMessageBuilder`: info kind and data, name, admin-up flag and
optional underlying link. -/
structure LinkMessageM where
  name : Option String
  index : Option Nat
  info_kind : Option InfoKindM
  info_data : Option InfoDataM
  up : Bool
  link : Option Nat
deriving Repr, DecidableEq

/-- `virtual_interface::build_create_message`. -/
def build_create_message (spec : VirtualInterfaceSpecM) :
    Except String LinkMessageM := do
  validate_create_kind spec.kind
  let data ← build_info_data spec.kind
  pure ⟨some spec.name, none,
        some (virtual_interface_kind_to_info_kind spec.kind), some data,
        spec.admin_up, virtual_interface_link spec.kind⟩

/-- `virtual_interface::RtnlVirtualInterfaceResponse`. -/
inductive RtnlVirtualInterfaceResponse
  | Success
  | Failed
  | NotFound
  | Index (i : Nat)
deriving Repr, DecidableEq

/-- Outcome of a virtual-interface wire call, split by the io-kind
inspection in `netlink_error_to_response`. -/
inductive VifOpResult
  | ok
  | netlinkNotFound
  | netlinkOther
  | otherError
deriving Repr, DecidableEq

/-- The transport handle used by the virtual-interface server, as an
oracle over the built create message. -/
structure VifHandleModel where
  addLink : LinkMessageM → VifOpResult

/-- The `Create` arm of `virtual_interface::run_server`: a message-build
failure is answered `Failed` with no wire call; otherwise one wire call
is made and a `NetlinkError` is classified by
`netlink_error_to_response`. -/
def vi_serve_create (h : VifHandleModel) (spec : VirtualInterfaceSpecM) :
    RtnlVirtualInterfaceResponse × Nat :=
  match build_create_message spec with
  | .error _ => (.Failed, 0)
  | .ok msg =>
    match h.addLink msg with
    | .ok => (.Success, 1)
    | .netlinkNotFound => (.NotFound, 1)
    | .netlinkOther => (.Failed, 1)
    | .otherError => (.Failed, 1)

end VIf

namespace Route

/-- A route transport oracle whose add operations always report an
`AlreadyExists` kernel conflict. -/
def conflictHandle : RouteHandleModel :=
  ⟨fun _ _ => .netlinkAlreadyExists, fun _ _ => .netlinkAlreadyExists⟩

end Route

namespace VIf

/-- A virtual-interface transport oracle whose every call succeeds. -/
def trivialHandle : VifHandleModel := ⟨fun _ => .ok⟩

end VIf

namespace Link

/-- A link transport oracle whose get-by-index enumeration yields one
reply carrying a single link-layer `Address` attribute. -/
def macProbeHandle (i : Nat) (a : List Nat) : LinkHandleModel :=
  ⟨fun _ => [⟨i, [.Address a]⟩], fun _ => [], [], fun _ => .ok⟩

end Link

/-!
Theorems settling the claims.
-/

/-- Claim C1, counterexample: the address set server arm answers `Failed`,
not `NotFound`, for interface index 0 (here: adding 192.0.2.1/24 on
interface 0), so not every interface-targeted operation yields a
not-found result. -/
theorem claim_C1_counterexample :
    Addr.addressServe Addr.trivialHandle
        (.Ipv4AddrSet ⟨3221226001, 24⟩ 0) = (.Failed, 0)
    ∧ Addr.RtnlAddressResponse.Failed ≠ Addr.RtnlAddressResponse.NotFound :=
  ⟨rfl, by decide⟩

/-- Claim C1, amended: every interface-targeted link operation with
interface index 0 is answered `NotFound`, and every address set/delete
with interface index 0 is answered `Failed`; in all cases the server
short-circuits without issuing any operation on the transport handle. -/
theorem claim_C1_amended (hl : Link.LinkHandleModel)
    (ha : Addr.AddressHandleModel) (mac : List Nat) (up enable : Bool)
    (mtu : Nat) (nm : String) (p4 : Addr.Ipv4NetM) (p6 : Addr.Ipv6NetM) :
    Link.linkServe hl (.InterfaceGet 0) = (.ok .NotFound, 0)
    ∧ Link.linkServe hl (.MacAddrGet 0) = (.ok .NotFound, 0)
    ∧ Link.linkServe hl (.MtuGet 0) = (.ok .NotFound, 0)
    ∧ Link.linkServe hl (.InterfaceSetAdmin 0 up) = (.ok .NotFound, 0)
    ∧ Link.linkServe hl (.InterfaceSetPromisc 0 enable) = (.ok .NotFound, 0)
    ∧ Link.linkServe hl (.InterfaceSetArp 0 enable) = (.ok .NotFound, 0)
    ∧ Link.linkServe hl (.InterfaceSetAllMulticast 0 enable)
        = (.ok .NotFound, 0)
    ∧ Link.linkServe hl (.InterfaceSetMtu 0 mtu) = (.ok .NotFound, 0)
    ∧ Link.linkServe hl (.MacAddrSet 0 mac) = (.ok .NotFound, 0)
    ∧ Link.linkServe hl (.InterfaceRename 0 nm) = (.ok .NotFound, 0)
    ∧ Addr.addressServe ha (.Ipv4AddrSet p4 0) = (.Failed, 0)
    ∧ Addr.addressServe ha (.Ipv6AddrSet p6 0) = (.Failed, 0)
    ∧ Addr.addressServe ha (.Ipv4AddrDel p4 0) = (.Failed, 0)
    ∧ Addr.addressServe ha (.Ipv6AddrDel p6 0) = (.Failed, 0) :=
  ⟨rfl, rfl, rfl, rfl, rfl, rfl, rfl, rfl, rfl, rfl, rfl, rfl, rfl, rfl⟩

/-- Claim C2, counterexample: the `mac_addr_get` facade maps the `Failed`
and `NotFound` responses to `Ok(None)` — an unexpected variant is
silently coerced into a success value instead of an error naming it. -/
theorem claim_C2_counterexample :
    Link.mac_addr_get_handle Link.RtnlLinkResponse.Failed = .ok none
    ∧ Link.mac_addr_get_handle Link.RtnlLinkResponse.NotFound = .ok none :=
  ⟨rfl, rfl⟩

/-- Claim C2, amended: the status-mapping helpers
(`link::handle_status_response`, `address::handle_basic_response`) answer
every unrecognized variant with an error whose message names the variant;
but the link getters do not: `mac_addr_get` coerces every non-`MacAddr`
variant to `Ok(None)`, and `interface_get_by_name` / `interface_list` /
`ipv4_addrs_get` / `ipv6_addrs_get` answer unrecognized variants with
fixed-message errors that do not name the variant. -/
theorem claim_C2_amended :
    (∀ (op : String) (l : List Link.Interface),
        Link.handle_status_response op (.InterfaceList l)
          = .error ⟨.other, op ++ " returned unexpected response: "
              ++ Link.linkRespDebug (.InterfaceList l)⟩)
    ∧ (∀ (op : String) (i : Link.Interface),
        Link.handle_status_response op (.Interface i)
          = .error ⟨.other, op ++ " returned unexpected response: "
              ++ Link.linkRespDebug (.Interface i)⟩)
    ∧ (∀ (op : String) (m : List Nat),
        Link.handle_status_response op (.MacAddr m)
          = .error ⟨.other, op ++ " returned unexpected response: "
              ++ Link.linkRespDebug (.MacAddr m)⟩)
    ∧ (∀ (op : String) (n : Nat),
        Link.handle_status_response op (.Mtu n)
          = .error ⟨.other, op ++ " returned unexpected response: "
              ++ Link.linkRespDebug (.Mtu n)⟩)
    ∧ (∀ (op : String) (d : Bool) (a : List Nat),
        Addr.handle_basic_response op d (.Ipv4Addrs a)
          = .error ⟨.other, op ++ " returned unexpected response: "
              ++ Addr.addrRespDebug (.Ipv4Addrs a)⟩)
    ∧ (∀ (op : String) (d : Bool) (a : List Nat),
        Addr.handle_basic_response op d (.Ipv6Addrs a)
          = .error ⟨.other, op ++ " returned unexpected response: "
              ++ Addr.addrRespDebug (.Ipv6Addrs a)⟩)
    ∧ (∀ r : Link.RtnlLinkResponse, (∀ a, r ≠ .MacAddr a) →
        Link.mac_addr_get_handle r = .ok none)
    ∧ (∀ r : Link.RtnlLinkResponse, (∀ i, r ≠ .Interface i) →
        Link.interface_get_by_name_handle r = .error ⟨.other, "Not found"⟩)
    ∧ (∀ r : Link.RtnlLinkResponse, (∀ l, r ≠ .InterfaceList l) →
        Link.interface_list_handle r = .error ⟨.other, "Unknown error"⟩)
    ∧ (∀ r : Addr.RtnlAddressResponse, (∀ a, r ≠ .Ipv4Addrs a) →
        Addr.ipv4_addrs_get_handle r
          = .error ⟨.other, "Failed to get IPv4 addresses"⟩)
    ∧ (∀ r : Addr.RtnlAddressResponse, (∀ a, r ≠ .Ipv6Addrs a) →
        Addr.ipv6_addrs_get_handle r
          = .error ⟨.other, "Failed to get IPv6 addresses"⟩) := by
  refine ⟨fun op l => rfl, fun op i => rfl, fun op m => rfl, fun op n => rfl,
    fun op d a => rfl, fun op d a => rfl, ?_, ?_, ?_, ?_, ?_⟩
  · intro r hr
    cases r with
    | MacAddr a => exact absurd rfl (hr a)
    | _ => rfl
  · intro r hr
    cases r with
    | Interface i => exact absurd rfl (hr i)
    | _ => rfl
  · intro r hr
    cases r with
    | InterfaceList l => exact absurd rfl (hr l)
    | _ => rfl
  · intro r hr
    cases r with
    | Ipv4Addrs a => exact absurd rfl (hr a)
    | _ => rfl
  · intro r hr
    cases r with
    | Ipv6Addrs a => exact absurd rfl (hr a)
    | _ => rfl

/-- Claim C2, witness: the amended theorem applied at concrete inputs. -/
theorem claim_C2_witness :
    Link.mac_addr_get_handle Link.RtnlLinkResponse.NotImplemented = .ok none
    ∧ Link.interface_list_handle Link.RtnlLinkResponse.Failed
        = .error ⟨.other, "Unknown error"⟩ :=
  ⟨claim_C2_amended.2.2.2.2.2.2.1 Link.RtnlLinkResponse.NotImplemented
      (fun _a h => nomatch h),
   claim_C2_amended.2.2.2.2.2.2.2.2.1 Link.RtnlLinkResponse.Failed
      (fun _l h => nomatch h)⟩

/-- Claim C3: for every v4/v6 prefix and non-zero interface index, the
address set (add) server arm answers `Success` when the kernel reports an
`AlreadyExists` conflict, exactly as when the kernel accepts the add —
so adding the same prefix twice yields success both times. -/
theorem claim_C3_addr_add_idempotent (h : Addr.AddressHandleModel)
    (p4 : Addr.Ipv4NetM) (p6 : Addr.Ipv6NetM) (i : Nat) (hi : i ≠ 0)
    (h4 : h.addV4 i p4 = .ok ∨ h.addV4 i p4 = .netlinkAlreadyExists)
    (h6 : h.addV6 i p6 = .ok ∨ h.addV6 i p6 = .netlinkAlreadyExists) :
    Addr.addressServe h (.Ipv4AddrSet p4 i) = (.Success, 1)
    ∧ Addr.addressServe h (.Ipv6AddrSet p6 i) = (.Success, 1) := by
  constructor
  · simp only [Addr.addressServe]
    rw [if_neg hi]
    rcases h4 with h4 | h4 <;> rw [h4]
  · simp only [Addr.addressServe]
    rw [if_neg hi]
    rcases h6 with h6 | h6 <;> rw [h6]

/-- Claim C3, witness: both adds succeed against an oracle that always
reports an `AlreadyExists` conflict. -/
theorem claim_C3_witness :
    Addr.addressServe Addr.conflictHandle
        (.Ipv4AddrSet ⟨3221226001, 24⟩ 1) = (.Success, 1)
    ∧ Addr.addressServe Addr.conflictHandle
        (.Ipv6AddrSet ⟨1, 64⟩ 1) = (.Success, 1) :=
  claim_C3_addr_add_idempotent Addr.conflictHandle ⟨3221226001, 24⟩ ⟨1, 64⟩ 1
    (by decide) (Or.inr rfl) (Or.inr rfl)

/-- Claim C4: the non-replace route add maps a kernel `AlreadyExists`
error to the `Failed` response — not to success and not to not-found —
and the facade turns `Failed` into an operation-failed error. -/
theorem claim_C4_route_add_conflict (h : Route.RouteHandleModel)
    (r4 : Route.Ipv4RouteM) (r6 : Route.Ipv6RouteM)
    (h4 : h.addV4 r4 false = .netlinkAlreadyExists)
    (h6 : h.addV6 r6 false = .netlinkAlreadyExists) :
    Route.add_route_v4 h r4 false = .Failed
    ∧ Route.add_route_v6 h r6 false = .Failed
    ∧ Route.RtnlRouteResponse.Failed ≠ Route.RtnlRouteResponse.Success
    ∧ Route.RtnlRouteResponse.Failed ≠ Route.RtnlRouteResponse.NotFound
    ∧ Route.handle_route_status "add IPv4 route" .Failed
        = .error ⟨.other, "add IPv4 route" ++ " failed"⟩
    ∧ Route.handle_route_status "add IPv6 route" .Failed
        = .error ⟨.other, "add IPv6 route" ++ " failed"⟩ := by
  refine ⟨?_, ?_, by decide, by decide, rfl, rfl⟩
  · unfold Route.add_route_v4
    rw [h4]
    rfl
  · unfold Route.add_route_v6
    rw [h6]
    rfl


/-- Claim C4, witness: both adds fail against an oracle that always
reports an `AlreadyExists` conflict. -/
theorem claim_C4_witness :
    Route.add_route_v4 Route.conflictHandle
        ⟨none, none, none, none, none, ⟨0, 0⟩, []⟩ false = .Failed
    ∧ Route.add_route_v6 Route.conflictHandle
        ⟨none, none, none, none, none, ⟨0, 0⟩, []⟩ false = .Failed :=
  ⟨(claim_C4_route_add_conflict Route.conflictHandle
      ⟨none, none, none, none, none, ⟨0, 0⟩, []⟩
      ⟨none, none, none, none, none, ⟨0, 0⟩, []⟩ rfl rfl).1,
   (claim_C4_route_add_conflict Route.conflictHandle
      ⟨none, none, none, none, none, ⟨0, 0⟩, []⟩
      ⟨none, none, none, none, none, ⟨0, 0⟩, []⟩ rfl rfl).2.1⟩

/-- Claim C5: decoding a multipath next hop with wire hop-count `h` yields
domain weight `h + 1`; encoding a domain weight `w` yields wire hop-count
`w - 1` saturated at 255; for `1 ≤ w ≤ 256` encode-then-decode returns
`w` (through `build_multipath_v4`/`v6` and `convert_multipath`), and for
every u8 wire value decode-then-encode returns it. -/
theorem claim_C5_multipath_weight :
    (∀ path : Route.RouteNextHopM, path.hops < 256 →
        (Route.convert_multipath [path]).map Route.RouteNextHopInfoM.weight
          = [path.hops + 1])
    ∧ (∀ w : Nat, 1 ≤ w → w ≤ 256 → Route.weight_to_hops w = w - 1)
    ∧ (∀ w : Nat, 256 < w → Route.weight_to_hops w = 255)
    ∧ (∀ e : Route.RouteNextHopInfoM, 1 ≤ e.weight → e.weight ≤ 256 →
        (Route.build_multipath_v4 [e]).map
            (fun l => (Route.convert_multipath l).map
              Route.RouteNextHopInfoM.weight)
          = some [e.weight])
    ∧ (∀ e : Route.RouteNextHopInfoM, 1 ≤ e.weight → e.weight ≤ 256 →
        (Route.build_multipath_v6 [e]).map
            (fun l => (Route.convert_multipath l).map
              Route.RouteNextHopInfoM.weight)
          = some [e.weight])
    ∧ (∀ path : Route.RouteNextHopM, path.hops < 256 →
        (Route.convert_multipath [path]).map
            (fun q => Route.weight_to_hops q.weight)
          = [path.hops]) := by
  refine ⟨?_, ?_, ?_, ?_, ?_, ?_⟩
  · intro path hp
    simp [Route.convert_multipath]
    omega
  · intro w h1 h2
    unfold Route.weight_to_hops
    omega
  · intro w hw
    unfold Route.weight_to_hops
    omega
  · intro e h1 h2
    simp [Route.build_multipath_v4, Route.convert_multipath,
      Route.weight_to_hops]
    omega
  · intro e h1 h2
    simp [Route.build_multipath_v6, Route.convert_multipath,
      Route.weight_to_hops]
    omega
  · intro path hp
    simp [Route.convert_multipath, Route.weight_to_hops]
    omega

/-- Claim C5, witness: wire hop-count 0 decodes to weight 1, weight 1
encodes to hop-count 0, saturation at 255, and the round trip at the
range maximum 256. -/
theorem claim_C5_witness :
    (Route.convert_multipath [⟨0, 0, 0, []⟩]).map
        Route.RouteNextHopInfoM.weight = [1]
    ∧ Route.weight_to_hops 1 = 0
    ∧ Route.weight_to_hops 300 = 255
    ∧ (Route.build_multipath_v4 [⟨none, none, 256, 0⟩]).map
        (fun l => (Route.convert_multipath l).map
          Route.RouteNextHopInfoM.weight) = some [256] :=
  ⟨claim_C5_multipath_weight.1 ⟨0, 0, 0, []⟩ (by decide),
   claim_C5_multipath_weight.2.1 1 (by decide) (by decide),
   claim_C5_multipath_weight.2.2.1 300 (by decide),
   claim_C5_multipath_weight.2.2.2.1 ⟨none, none, 256, 0⟩
     (by decide) (by decide)⟩

/-- The host-bits mask `0xffff_ffff_u32 >> n` equals `2 ^ (32 - n) - 1`
for every shift the code performs. -/
theorem shiftRight_ones32 (n : Nat) (hn : n ≤ 32) :
    Nat.shiftRight 0xffffffff n = 2 ^ (32 - n) - 1 := by
  interval_cases n <;> decide

/-- Claim C6: for a non-multicast IPv4 prefix the built address message
carries `Address` and `Local` plus a `Broadcast` equal to the prefix
address with all host bits set; for prefix length 32 the broadcast is the
address itself; for a multicast IPv4 address no attributes are attached. -/
theorem claim_C6_v4_broadcast (net : Addr.Ipv4NetM) (if_id : Nat)
    (hlen : net.prefix_len ≤ 32) :
    (Addr.ipv4_is_multicast net.addr = false →
        (Addr.build_ipv4_address_message net if_id).attributes
          = [.Address (.v4 net.addr), .Local (.v4 net.addr),
             .Broadcast (Nat.lor net.addr (2 ^ (32 - net.prefix_len) - 1))])
    ∧ (net.prefix_len = 32 → Addr.ipv4_broadcast net = net.addr)
    ∧ (Addr.ipv4_is_multicast net.addr = true →
        (Addr.build_ipv4_address_message net if_id).attributes = []) := by
  have hbc : Addr.ipv4_broadcast net
      = Nat.lor net.addr (2 ^ (32 - net.prefix_len) - 1) := by
    unfold Addr.ipv4_broadcast
    by_cases h32 : net.prefix_len = 32
    · rw [if_pos h32, h32]
      simp [Nat.or_zero, Nat.lor]
    · rw [if_neg h32, shiftRight_ones32 net.prefix_len hlen]
  refine ⟨?_, ?_, ?_⟩
  · intro hmc
    simp [Addr.build_ipv4_address_message, hmc, hbc]
  · intro h32
    unfold Addr.ipv4_broadcast
    rw [if_pos h32]
  · intro hmc
    simp [Addr.build_ipv4_address_message, hmc]

/-- Claim C6, witness: 192.0.2.1/24 yields broadcast 192.0.2.255
(3221226001 and 3221226239 as u32 values), and a /32 yields the address
itself. -/
theorem claim_C6_witness :
    (Addr.build_ipv4_address_message ⟨3221226001, 24⟩ 5).attributes
      = [.Address (.v4 3221226001), .Local (.v4 3221226001),
         .Broadcast (Nat.lor 3221226001 (2 ^ (32 - 24) - 1))]
    ∧ Nat.lor 3221226001 (2 ^ (32 - 24) - 1) = 3221226239
    ∧ Addr.ipv4_broadcast ⟨3221226001, 32⟩ = 3221226001 :=
  ⟨(claim_C6_v4_broadcast ⟨3221226001, 24⟩ 5 (by decide)).1 (by decide),
   by decide,
   (claim_C6_v4_broadcast ⟨3221226001, 32⟩ 5 (by decide)).2.1 rfl⟩

/-- Claim C7: a VLAN create whose configuration lacks a base interface or
a VLAN id fails while building the message — so the server answers
`Failed` without any wire call — and with both supplied the create
message carries the VLAN info kind and exactly one VLAN-id attribute
holding the given id. -/
theorem claim_C7_vlan_validation (h : VIf.VifHandleModel) (nm : String)
    (up : Bool) (cfg : VIf.VlanConfigM)
    (hmiss : cfg.base_ifindex = none ∨ cfg.vlan_id = none)
    (base id : Nat) :
    (∃ e, VIf.build_create_message ⟨nm, .Vlan cfg, up⟩ = Except.error e)
    ∧ VIf.vi_serve_create h ⟨nm, .Vlan cfg, up⟩ = (.Failed, 0)
    ∧ VIf.build_create_message ⟨nm, .Vlan ⟨some base, some id⟩, up⟩
        = Except.ok ⟨some nm, none, some .Vlan, some (.VlanD [.Id id]),
            up, some base⟩ := by
  obtain ⟨b, v⟩ := cfg
  rcases b with _ | x
  · exact ⟨⟨_, rfl⟩, rfl, rfl⟩
  · rcases v with _ | y
    · exact ⟨⟨_, rfl⟩, rfl, rfl⟩
    · rcases hmiss with hb | hv
      · exact absurd hb (by simp)
      · exact absurd hv (by simp)

/-- Claim C7, witness: the theorem applied at a VLAN config missing the
base interface, and at a complete config with base 2 and id 100. -/
theorem claim_C7_witness :
    (∃ e, VIf.build_create_message
        ⟨"vlan0", .Vlan ⟨none, some 100⟩, true⟩ = Except.error e)
    ∧ VIf.vi_serve_create VIf.trivialHandle
        ⟨"vlan0", .Vlan ⟨none, some 100⟩, true⟩ = (.Failed, 0)
    ∧ VIf.build_create_message ⟨"vlan0", .Vlan ⟨some 2, some 100⟩, true⟩
        = Except.ok ⟨some "vlan0", none, some .Vlan,
            some (.VlanD [.Id 100]), true, some 2⟩ :=
  claim_C7_vlan_validation VIf.trivialHandle "vlan0" true ⟨none, some 100⟩
    (Or.inl rfl) 2 100

/-- The aligned length is at least the payload length. -/
theorem align_nla_le (len : Nat) : len ≤ VIf.align_nla len := by
  unfold VIf.align_nla VIf.NLA_ALIGNTO
  omega

/-- The aligned length is a multiple of 4. -/
theorem align_nla_dvd (len : Nat) : 4 ∣ VIf.align_nla len := by
  unfold VIf.align_nla VIf.NLA_ALIGNTO
  omega

/-- A native-endian u16 occupies two bytes. -/
theorem ne16_length (v : Nat) : (VIf.ne16 v).length = 2 := rfl

/-- Overwriting a zero-filled buffer at offset 0. -/
theorem writeBytes_zero (A : Nat) (data : List Nat) :
    VIf.writeBytes (List.replicate A 0) 0 data
      = data ++ List.replicate (A - data.length) 0 := by
  unfold VIf.writeBytes
  simp

/-- Overwriting at the offset right after a known head of the buffer. -/
theorem writeBytes_at (pre rest data : List Nat) (off : Nat)
    (h : pre.length = off) :
    VIf.writeBytes (pre ++ rest) off data
      = pre ++ data ++ rest.drop data.length := by
  unfold VIf.writeBytes
  rw [List.take_left' h]
  have h2 : off + data.length = pre.length + data.length := by omega
  rw [h2, ← List.drop_drop, List.drop_left]

/-- The byte layout of one encoded attribute record: length field, kind
field, value bytes, zero padding to the aligned length. -/
theorem encodeRecord_eq (nla : VIf.DefaultNlaM) :
    VIf.encodeRecord nla
      = VIf.ne16 (nla.value.length + 4) ++ VIf.ne16 nla.kind ++ nla.value
        ++ List.replicate
            (VIf.align_nla (nla.value.length + 4) - (nla.value.length + 4)) 0 := by
  have e0 : VIf.encodeRecord nla
      = VIf.writeBytes
          (VIf.writeBytes
            (VIf.writeBytes
              (List.replicate (VIf.align_nla (nla.value.length + 4)) 0) 0
              (VIf.ne16 (nla.value.length + 4)))
            2 (VIf.ne16 nla.kind))
          4 nla.value := rfl
  rw [e0, writeBytes_zero, ne16_length,
    writeBytes_at (VIf.ne16 (nla.value.length + 4)) _ _ 2 (ne16_length _),
    ne16_length, List.drop_replicate,
    writeBytes_at (VIf.ne16 (nla.value.length + 4) ++ VIf.ne16 nla.kind) _ _ 4
      (by simp [VIf.ne16]),
    List.drop_replicate]
  have hcount : VIf.align_nla (nla.value.length + 4) - 2 - 2 - nla.value.length
      = VIf.align_nla (nla.value.length + 4) - (nla.value.length + 4) := by
    omega
  rw [hcount]

/-- The loop of `encode_default_nlas` appends the records in order. -/
theorem encode_default_nlas_eq_flatten (nlas : List VIf.DefaultNlaM) :
    VIf.encode_default_nlas nlas = (nlas.map VIf.encodeRecord).flatten := by
  have gen : ∀ (l : List VIf.DefaultNlaM) (acc : List Nat),
      l.foldl (fun buffer nla => buffer ++ VIf.encodeRecord nla) acc
        = acc ++ (l.map VIf.encodeRecord).flatten := by
    intro l
    induction l with
    | nil => intro acc; simp
    | cons x xs ih => intro acc; simp [ih]
  simpa [VIf.encode_default_nlas] using gen nlas []

/-- Each record is exactly as long as the aligned record length. -/
theorem encodeRecord_length (nla : VIf.DefaultNlaM) :
    (VIf.encodeRecord nla).length = VIf.align_nla (nla.value.length + 4) := by
  have hle := align_nla_le (nla.value.length + 4)
  rw [encodeRecord_eq]
  simp [VIf.ne16]
  omega

/-- Claim C8: the manual attribute encoder emits one record per attribute
starting at a 4-byte-aligned offset; the first two bytes hold the 16-bit
length `4 + value_len`, the next two the 16-bit kind, then the value
bytes and zero padding to the next multiple of 4; the buffer length is
the sum of the aligned record lengths. -/
theorem claim_C8_nla_encoding (nlas : List VIf.DefaultNlaM)
    (hlen : ∀ nla ∈ nlas, nla.value.length + 4 < 65536)
    (hkind : ∀ nla ∈ nlas, nla.kind < 65536) :
    VIf.encode_default_nlas nlas = (nlas.map VIf.encodeRecord).flatten
    ∧ (∀ nla ∈ nlas,
        VIf.encodeRecord nla
          = VIf.ne16 (nla.value.length + 4) ++ VIf.ne16 nla.kind ++ nla.value
            ++ List.replicate
                (VIf.align_nla (nla.value.length + 4)
                  - (nla.value.length + 4)) 0)
    ∧ (∀ nla ∈ nlas,
        (VIf.encodeRecord nla).length = VIf.align_nla (nla.value.length + 4))
    ∧ (∀ nla ∈ nlas, 4 ∣ (VIf.encodeRecord nla).length)
    ∧ (VIf.encode_default_nlas nlas).length
        = (nlas.map (fun nla => VIf.align_nla (nla.value.length + 4))).sum
    ∧ (∀ i : Nat,
        4 ∣ ((nlas.take i).map (fun nla => (VIf.encodeRecord nla).length)).sum)
    ∧ (∀ nla ∈ nlas,
        (VIf.ne16 (nla.value.length + 4)).getD 0 0
          + 256 * (VIf.ne16 (nla.value.length + 4)).getD 1 0
          = nla.value.length + 4)
    ∧ (∀ nla ∈ nlas,
        (VIf.ne16 nla.kind).getD 0 0 + 256 * (VIf.ne16 nla.kind).getD 1 0
          = nla.kind) := by
  refine ⟨encode_default_nlas_eq_flatten nlas,
    fun nla _ => encodeRecord_eq nla,
    fun nla _ => encodeRecord_length nla,
    fun nla _ => by rw [encodeRecord_length]; exact align_nla_dvd _,
    ?_, ?_, ?_, ?_⟩
  · rw [encode_default_nlas_eq_flatten, List.length_flatten, List.map_map]
    have hfun : (List.length ∘ VIf.encodeRecord : VIf.DefaultNlaM → Nat)
        = fun nla => VIf.align_nla (nla.value.length + 4) :=
      funext encodeRecord_length
    rw [hfun]
  · intro i
    refine List.dvd_sum ?_
    intro x hx
    obtain ⟨nla, _, rfl⟩ := List.mem_map.mp hx
    rw [encodeRecord_length]
    exact align_nla_dvd _
  · intro nla hmem
    have := hlen nla hmem
    simp [VIf.ne16]
    omega
  · intro nla hmem
    have := hkind nla hmem
    simp [VIf.ne16]
    omega

/-- Claim C8, witness: encoding one attribute of kind 8 with a single
value byte. -/
theorem claim_C8_witness :
    VIf.encode_default_nlas [⟨8, [1]⟩]
      = ([(⟨8, [1]⟩ : VIf.DefaultNlaM)].map VIf.encodeRecord).flatten
    ∧ (VIf.encode_default_nlas [⟨8, [1]⟩]).length
        = ([(⟨8, [1]⟩ : VIf.DefaultNlaM)].map
            (fun nla => VIf.align_nla (nla.value.length + 4))).sum :=
  ⟨(claim_C8_nla_encoding [⟨8, [1]⟩] (by decide) (by decide)).1,
   (claim_C8_nla_encoding [⟨8, [1]⟩] (by decide) (by decide)).2.2.2.2.1⟩

/-- Claim C9: on a decoded neighbor table, get answers not-found when no
entry matches the destination (and the optional interface filter), and
list with an interface filter returns exactly the entries on that
interface — an empty list, never an error, when none match. -/
theorem claim_C9_neighbor_filtering (entries : List Neigh.NeighborEntryM)
    (destination : IpAddrM) (fid : Option Nat) (F : Nat) :
    ((∀ e ∈ entries, Neigh.neighborMatches destination fid e = false) →
        Neigh.get_neighbor (.ok entries) destination fid = .NotFound)
    ∧ Neigh.list_neighbors (.ok entries) (some F)
        = .Neighbors (entries.filter (fun e => e.if_id == F))
    ∧ (∀ e, e ∈ entries.filter (fun e => e.if_id == F)
        ↔ e ∈ entries ∧ e.if_id = F)
    ∧ ((∀ e ∈ entries, e.if_id ≠ F) →
        Neigh.list_neighbors (.ok entries) (some F) = .Neighbors []) := by
  refine ⟨?_, rfl, ?_, ?_⟩
  · intro hnone
    have hfind : entries.find? (Neigh.neighborMatches destination fid) = none := by
      rw [List.find?_eq_none]
      intro e he
      simp [hnone e he]
    simp [Neigh.get_neighbor, hfind]
  · intro e
    simp [List.mem_filter]
  · intro hnone
    have hfil : entries.filter (fun e => e.if_id == F) = [] := by
      rw [List.filter_eq_nil_iff]
      intro e he
      simp [hnone e he]
    simp [Neigh.list_neighbors, hfil]

/-- Claim C9, witness: a one-entry table on interface 1 with destination
10.0.0.5 (as a v4 value): a get for a different destination is
not-found, and a list filtered to interface 2 is the empty list. -/
theorem claim_C9_witness :
    Neigh.get_neighbor (.ok [⟨1, .v4 5, none, none, none⟩]) (.v4 6) none
      = .NotFound
    ∧ Neigh.list_neighbors (.ok [⟨1, .v4 5, none, none, none⟩]) (some 2)
      = .Neighbors [] :=
  ⟨(claim_C9_neighbor_filtering [⟨1, .v4 5, none, none, none⟩]
      (.v4 6) none 2).1
      (by intro e he; rw [List.mem_singleton] at he; subst he; decide),
   (claim_C9_neighbor_filtering [⟨1, .v4 5, none, none, none⟩]
      (.v4 6) none 2).2.2.2
      (by intro e he; rw [List.mem_singleton] at he; subst he; decide)⟩

/-- Claim C10: when the first link-layer `Address` attribute holds at
least 6 bytes the slice `addr[0..6]` is in bounds — the panic branch is
unreachable — and the server answers exactly the attribute's first six
bytes; a shorter attribute panics (there is no error handling for it). -/
theorem claim_C10_mac_slice (addr : List Nat) (i : Nat) :
    (6 ≤ addr.length →
        Link.mac_bytes_from_attr addr = .ok (addr.take 6)
        ∧ (addr.take 6).length = 6)
    ∧ (addr.length < 6 → Link.mac_bytes_from_attr addr = .error ())
    ∧ (i ≠ 0 → 6 ≤ addr.length →
        Link.linkServe (Link.macProbeHandle i addr) (.MacAddrGet i)
          = (.ok (.MacAddr (addr.take 6)), 1)) := by
  refine ⟨?_, ?_, ?_⟩
  · intro h
    constructor
    · unfold Link.mac_bytes_from_attr
      rw [if_pos h]
    · rw [List.length_take]
      omega
  · intro h
    unfold Link.mac_bytes_from_attr
    rw [if_neg (by omega)]
  · intro hi h
    simp only [Link.linkServe]
    rw [if_neg hi]
    have hfind : ((Link.macProbeHandle i addr).getByIndex i).findSome?
        (fun m => Link.firstAddressAttr m.attributes) = some addr := rfl
    simp [hfind, Link.mac_bytes_from_attr, h]

/-- Claim C10, witness: a 7-byte attribute on interface 3 yields the
first six bytes. -/
theorem claim_C10_witness :
    Link.mac_bytes_from_attr [1, 2, 3, 4, 5, 6, 7]
        = .ok ([1, 2, 3, 4, 5, 6, 7].take 6)
    ∧ Link.mac_bytes_from_attr [1, 2] = .error ()
    ∧ Link.linkServe (Link.macProbeHandle 3 [1, 2, 3, 4, 5, 6, 7])
        (.MacAddrGet 3)
      = (.ok (.MacAddr ([1, 2, 3, 4, 5, 6, 7].take 6)), 1) :=
  ⟨((claim_C10_mac_slice [1, 2, 3, 4, 5, 6, 7] 3).1 (by decide)).1,
   (claim_C10_mac_slice [1, 2] 3).2.1 (by decide),
   (claim_C10_mac_slice [1, 2, 3, 4, 5, 6, 7] 3).2.2 (by decide) (by decide)⟩
